import Mathlib

/-!
Shallow embedding of the 3-qubit bit-flip repetition-code demo
(qec_bitflip_demo / src/main.py) and proofs about it.

The program builds quantum circuits out of X, H, CNOT and measurement
operations, injects a single bit-flip fault between the encoding and the
decoding stages, and post-processes measured bitstrings classically
(majority vote).  For basis-state preparations (zero and one) every gate
used by the pipeline (X, CNOT, measurement) maps computational basis
states to computational basis states, so the quantum evolution is an
exact deterministic classical computation on bit vectors; the backend
then returns the unique resulting bitstring with probability 1 over
shots.  The embedding below models circuits as gate lists and runs them
with that classical basis-state semantics; the Hadamard gate (used only
by the plus preparation) is not classical and the simulator refuses it
(returns none).
-/

/-- A gate operation of the demo: bit flip, Hadamard, controlled-NOT,
or measurement of a qubit into a classical bit. -/
inductive Gate where
  | x (q : Nat)
  | h (q : Nat)
  | cx (c t : Nat)
  | measure (q c : Nat)
deriving DecidableEq, Repr

/-- Errors the Python code can raise while building a circuit:
a ValueError with a message (`raise ValueError(...)` in
make_circuit_with_error, src/main.py line 55), or the CircuitError that
qiskit raises when a gate names a qubit index its qubit list cannot
resolve. -/
inductive QiskitError where
  | valueError (msg : String)
  | circuitError (idx : Int)
deriving DecidableEq, Repr

/-- The exact message of the ValueError at src/main.py line 55
(\x27 is the ASCII apostrophe). -/
def prep_err_msg : String :=
  "state_prep not in [\x27zero\x27,\x27one\x27,\x27plus\x27]"

/-- encode_bitflip (src/main.py lines 9-19): cx(0,1) then cx(0,2). -/
def encode_bitflip : List Gate :=
  [Gate.cx 0 1, Gate.cx 0 2]

/-- decode_bitflip (src/main.py lines 21-31): cx(0,2) then cx(0,1). -/
def decode_bitflip : List Gate :=
  [Gate.cx 0 2, Gate.cx 0 1]

/-- The final measurement step, qc.measure([0,1,2],[0,1,2])
(src/main.py line 67). -/
def measure_all : List Gate :=
  [Gate.measure 0 0, Gate.measure 1 1, Gate.measure 2 2]

/-- The state-preparation stage of make_circuit_with_error
(src/main.py lines 47-55): zero adds nothing, one adds x(0), plus adds
h(0), anything else raises ValueError with the fixed message. -/
def prep_logical (state_prep : String) : Except QiskitError (List Gate) :=
  if state_prep = "zero" then Except.ok []
  else if state_prep = "one" then Except.ok [Gate.x 0]
  else if state_prep = "plus" then Except.ok [Gate.h 0]
  else Except.error (QiskitError.valueError prep_err_msg)

/-- make_circuit_with_error (src/main.py lines 33-68): prepare the
logical state on qubit 0, append the encoding CNOTs, apply x(error_on),
append the decoding CNOTs, measure all three qubits.  error_on is a
Python int; qiskit resolves an integer qubit specifier by plain list
indexing into the register's qubit list, so on the 3-qubit register
indices 0, 1, 2 hit those qubits, Python's negative indexing makes -1,
-2, -3 hit qubits 2, 1, 0 (index e resolves to qubit e + 3), and any
other integer raises IndexError, surfaced as CircuitError. -/
def make_circuit_with_error (state_prep : String) (error_on : Int) :
    Except QiskitError (List Gate) :=
  (prep_logical state_prep).bind fun prep =>
    if 0 ≤ error_on ∧ error_on < 3 then
      Except.ok (prep ++ encode_bitflip ++ [Gate.x error_on.toNat] ++
        decode_bitflip ++ measure_all)
    else if -3 ≤ error_on ∧ error_on < 0 then
      Except.ok (prep ++ encode_bitflip ++ [Gate.x (error_on + 3).toNat] ++
        decode_bitflip ++ measure_all)
    else
      Except.error (QiskitError.circuitError error_on)

/-- Machine state of the classical basis-state semantics: the three
qubit values (a computational basis state) and the three classical
register bits, both as lists indexed from 0. -/
structure SimState where
  qubits : List Bool
  cbits : List Bool
deriving DecidableEq, Repr

/-- The initial state: all qubits |0>, all classical bits 0. -/
def init_state : SimState :=
  { qubits := [false, false, false], cbits := [false, false, false] }

/-- One gate of the classical basis-state semantics.  X flips a bit,
CNOT xors the control into the target, measurement of a basis state
deterministically copies the qubit value into the classical bit.
H does not map basis states to basis states, so the classical
semantics is undefined on it (none). -/
def runGate (s : SimState) : Gate → Option SimState
  | Gate.x q =>
      some { s with qubits := s.qubits.set q (!(s.qubits.getD q false)) }
  | Gate.h _ => none
  | Gate.cx c t =>
      some { s with qubits :=
        if s.qubits.getD c false then
          s.qubits.set t (!(s.qubits.getD t false))
        else s.qubits }
  | Gate.measure q c =>
      some { s with cbits := s.cbits.set c (s.qubits.getD q false) }

/-- Run a gate list left to right under the classical semantics. -/
def runCircuit (gates : List Gate) (s : SimState) : Option SimState :=
  gates.foldlM runGate s

/-- Python int() applied to a measured bit. -/
def bint (b : Bool) : Nat := if b then 1 else 0

/-- majority_from_key (src/main.py lines 98-101): reverse the counts
key (qiskit prints the classical register as c2 c1 c0), take the bits
as integers, return 1 when their sum is at least 2, else 0.  The key is
modelled as the list of bits of the printed string, left to right. -/
def majority_from_key (key : List Bool) : Nat :=
  let bits := key.reverse.map bint
  if 2 ≤ bits.sum then 1 else 0

/-- Number of 1-bits of an outcome. -/
def countOnes (key : List Bool) : Nat :=
  (key.map bint).sum

/-- Modelled from the spec (section 4.3), for comparison with the
source's majority_from_key: counts the number of 1-bits of an n-bit
outcome and returns 1 exactly when that count is strictly greater than
n / 2 (for odd n the real and integer readings of n / 2 agree on this
threshold: count > n / 2 iff 2 * count > n). -/
def majority_vote_spec (key : List Bool) : Nat :=
  if key.length < 2 * countOnes key then 1 else 0

/-- The measured counts key of the full pipeline, in qiskit print order
c2 c1 c0 (the classical register reversed), when the circuit builds and
is classical. -/
def pipeline_key (state_prep : String) (error_on : Int) :
    Option (List Bool) :=
  match make_circuit_with_error state_prep error_on with
  | Except.error _ => none
  | Except.ok gates =>
      (runCircuit gates init_state).map fun st => st.cbits.reverse

/-- The decoded logical bit the pipeline produces, when defined. -/
def pipeline_majority (state_prep : String) (error_on : Int) :
    Option Nat :=
  (pipeline_key state_prep error_on).map majority_from_key

/-- The logical bit encoded by a basis-state preparation label. -/
def logical_bit (state_prep : String) : Nat :=
  if state_prep = "one" then 1 else 0

-- Helper lemmas about majority_from_key.

/-- majority_from_key depends only on the number of 1-bits of the key:
it is 1 exactly when at least two bits are set (threshold hardcoded to
2 in the source). -/
theorem majority_from_key_eq_countOnes (key : List Bool) :
    majority_from_key key = if 2 ≤ countOnes key then 1 else 0 := by
  unfold majority_from_key countOnes
  simp only [List.map_reverse, List.sum_reverse]

/-- The zero-fault round trip of the testable-properties section:
the circuit stages of make_circuit_with_error composed without the
error-injection line (prepare, encode, decode, measure); returns the
final classical register (bit i holds the measurement of qubit i). -/
def round_trip_cbits (state_prep : String) : Option (List Bool) :=
  match prep_logical state_prep with
  | Except.error _ => none
  | Except.ok prep =>
      (runCircuit (prep ++ encode_bitflip ++ decode_bitflip ++ measure_all)
        init_state).map fun st => st.cbits

/-- The basis state the preparation stage puts on the three qubits
before encoding. -/
def prepared_qubits (state_prep : String) : Option (List Bool) :=
  match prep_logical state_prep with
  | Except.error _ => none
  | Except.ok prep =>
      (runCircuit prep init_state).map fun st => st.qubits

/-- Modelled from the spec: src/main.py injects exactly one fault, and
the spec (section 3, ErrorEvent) states the model "is extensible to a
set of simultaneous ErrorEvents for stress-testing beyond the code's
guaranteed correction radius".  This builder composes the source's
prepare/encode/decode/measure stages exactly as make_circuit_with_error
does, but places two bit-flip injections between the encoding and the
decoding stages. -/
def make_circuit_with_two_errors (state_prep : String) (e1 e2 : Nat) :
    Except QiskitError (List Gate) :=
  (prep_logical state_prep).bind fun prep =>
    if e1 < 3 ∧ e2 < 3 then
      Except.ok (prep ++ encode_bitflip ++ [Gate.x e1, Gate.x e2] ++
        decode_bitflip ++ measure_all)
    else
      Except.error (QiskitError.circuitError ((max e1 e2 : Nat) : Int))

/-- Decoded logical bit after a two-fault run, when defined. -/
def two_fault_majority (state_prep : String) (e1 e2 : Nat) : Option Nat :=
  match make_circuit_with_two_errors state_prep e1 e2 with
  | Except.error _ => none
  | Except.ok gates =>
      (runCircuit gates init_state).map fun st =>
        majority_from_key st.cbits.reverse

/-- What the harness produces for the plus trial (src/main.py lines
95-113): the shot total, the correct tally, and what is printed. -/
structure PlusReport where
  total : Nat
  correct : Nat
  printed : List (List Bool × Nat)
deriving DecidableEq, Repr

/-- The plus-state post-processing of run_demo (src/main.py lines
95-113): total = sum of the counts; correct starts at 0 and the loop
body over the outcome distribution is the pass statement, so the fold
carries the accumulator through unchanged (majority_from_key is defined
there but never invoked); the print statements output the raw counts. -/
def run_demo_plus_post (counts_plus : List (List Bool × Nat)) :
    PlusReport :=
  let total := (counts_plus.map Prod.snd).sum
  let correct := counts_plus.foldl (fun acc _ => acc) 0
  { total := total, correct := correct, printed := counts_plus }

/-- The circuit-building phase of run_demo (src/main.py lines 72-81):
one circuit per state label, error on qubit 1, built before the backend
executes anything.  The shots argument (default 4096) is forwarded to
execute() only; no line of run_demo inspects or validates it. -/
def run_demo_build (_shots : Int) : Except QiskitError (List (List Gate)) :=
  (make_circuit_with_error "zero" 1).bind fun c0 =>
  (make_circuit_with_error "one" 1).bind fun c1 =>
  (make_circuit_with_error "plus" 1).bind fun c2 =>
  Except.ok [c0, c1, c2]

/-- Whether a build result is a successful circuit list. -/
def buildsOk (r : Except QiskitError (List (List Gate))) : Bool :=
  match r with
  | Except.ok _ => true
  | Except.error _ => false

/-- Whether pat occurs at the very start of text. -/
def charsStartWith : List Char → List Char → Bool
  | [], _ => true
  | _ :: _, [] => false
  | a :: as, b :: bs => a == b && charsStartWith as bs

/-- Whether pat occurs contiguously anywhere inside text. -/
def charsContain (pat : List Char) : List Char → Bool
  | [] => charsStartWith pat []
  | b :: bs => charsStartWith pat (b :: bs) || charsContain pat bs

/-- countOnes is invariant under permutation of the key. -/
theorem countOnes_perm {k k' : List Bool} (h : k.Perm k') :
    countOnes k = countOnes k' := by
  unfold countOnes
  exact List.Perm.sum_eq (List.Perm.map bint h)

/-- A fold whose body ignores the list element returns its initial
accumulator. -/
theorem foldl_const {α β : Type} (l : List α) (a : β) :
    l.foldl (fun acc _ => acc) a = a := by
  induction l generalizing a with
  | nil => rfl
  | cons x xs ih => exact ih a

/-- C1 fails on the code: with state zero and the bit flip injected on
qubit 0, the decoding CNOTs are controlled by the now-flipped qubit 0
and propagate the fault to all three qubits, so the deterministic
outcome is 111 and its majority vote is 1, not the prepared logical
bit 0.  The theorem evaluates the pipeline at that failing input and,
for contrast, at the four error positions on qubits 1 and 2 (and at
state one with the error on qubit 0), where the vote does recover the
prepared bit.  Only the demo's own scenario (error on qubit 1) and
errors on qubit 2 are corrected for both states. -/
theorem single_fault_zero_qubit0_bug :
    pipeline_key "zero" 0 = some [true, true, true]
    ∧ pipeline_majority "zero" 0 = some 1
    ∧ logical_bit "zero" = 0
    ∧ pipeline_majority "zero" 1 = some 0
    ∧ pipeline_majority "zero" 2 = some 0
    ∧ pipeline_majority "one" 0 = some 1
    ∧ pipeline_majority "one" 1 = some 1
    ∧ pipeline_majority "one" 2 = some 1 := by
  decide

/-- C2: decode_bitflip is the exact reverse sequence of
encode_bitflip's CNOTs; composing decode after encode is the identity
on every 3-qubit basis state; and for the basis preparations zero and
one with no injected fault, the measured classical register equals the
basis state initially prepared. -/
theorem decode_reverses_encode_roundtrip :
    decode_bitflip = encode_bitflip.reverse
    ∧ (∀ a b c : Bool,
        runCircuit (encode_bitflip ++ decode_bitflip)
          { qubits := [a, b, c], cbits := [false, false, false] } =
        some { qubits := [a, b, c], cbits := [false, false, false] })
    ∧ (∀ s ∈ (["zero", "one"] : List String),
        round_trip_cbits s = prepared_qubits s) := by
  refine ⟨rfl, by decide, by decide⟩

/-- Witness for C2 at the state one. -/
theorem decode_reverses_encode_roundtrip_witness :
    round_trip_cbits "one" = prepared_qubits "one" :=
  decode_reverses_encode_roundtrip.2.2 "one" (by decide)

/-- C3 counterexample: the claim says that for every odd n the vote
returns 1 exactly when the 1-count strictly exceeds n / 2, but on the
5-bit outcome 11000 the source function majority_from_key (hardcoded
threshold: sum at least 2) returns 1 while the strict-majority rule of
the spec returns 0. -/
theorem majority_odd_rule_counterexample :
    majority_from_key [true, true, false, false, false] ≠
      majority_vote_spec [true, true, false, false, false] := by
  decide

/-- C3 amended: majority_from_key returns 1 exactly when at least two
bits of the outcome are 1 (a threshold hardcoded for n = 3, not the
general strict-majority rule); for 3-bit outcomes this coincides with
the spec's strictly-greater-than-n/2 rule.  It is a pure function. -/
theorem majority_threshold_two :
    (∀ key : List Bool,
      majority_from_key key = if 2 ≤ countOnes key then 1 else 0)
    ∧ (∀ key : List Bool, key.length = 3 →
        majority_from_key key = majority_vote_spec key) := by
  refine ⟨majority_from_key_eq_countOnes, ?_⟩
  intro key h
  obtain ⟨a, b, c, rfl⟩ := List.length_eq_three.mp h
  cases a <;> cases b <;> cases c <;> decide

/-- Witness for C3 amended at the 3-bit outcome 110. -/
theorem majority_threshold_two_witness :
    majority_from_key [true, true, false] =
      majority_vote_spec [true, true, false] :=
  majority_threshold_two.2 [true, true, false] (by decide)

/-- C4 counterexample: the claim says majority_from_key on a 4-bit
outcome fails with a ConfigurationError and never returns a decoded
bit, but on the 4-bit outcome 0110 it performs no length check and
returns the decoded bit 1. -/
theorem majority_even_length_counterexample :
    majority_from_key [false, true, true, false] = 1 := by
  decide

/-- C4 amended: majority_from_key performs no parity validation: on an
even-length outcome it does not fail, it returns the same fixed
threshold-2 vote it applies to every outcome. -/
theorem majority_even_length_returns :
    ∀ key : List Bool, key.length % 2 = 0 →
      majority_from_key key = if 2 ≤ countOnes key then 1 else 0 := by
  intro key _
  exact majority_from_key_eq_countOnes key

/-- Witness for C4 amended at the 4-bit outcome 0110. -/
theorem majority_even_length_returns_witness :
    majority_from_key [false, true, true, false] =
      if 2 ≤ countOnes [false, true, true, false] then 1 else 0 :=
  majority_even_length_returns [false, true, true, false] (by decide)

/-- C5 counterexample: the claim says the error message of an invalid
preparation label names the offending value, but for the label invalid
the raised ValueError carries the fixed message of src/main.py line 55,
which does not contain the offending value. -/
theorem invalid_label_message_counterexample :
    make_circuit_with_error "invalid" 1 =
      Except.error (QiskitError.valueError prep_err_msg)
    ∧ charsContain "invalid".data prep_err_msg.data = false := by
  exact ⟨rfl, by decide⟩

/-- C5 amended: the preparation stage returns the empty circuit for
zero, a single bit flip on qubit 0 for one, a single Hadamard on
qubit 0 for plus, and fails for every other label with a ValueError
whose fixed message names the allowed labels zero, one, plus but not
the offending value. -/
theorem prep_logical_behavior :
    prep_logical "zero" = Except.ok []
    ∧ prep_logical "one" = Except.ok [Gate.x 0]
    ∧ prep_logical "plus" = Except.ok [Gate.h 0]
    ∧ (∀ s : String, s ∉ (["zero", "one", "plus"] : List String) →
        prep_logical s = Except.error (QiskitError.valueError prep_err_msg))
    ∧ charsContain "zero".data prep_err_msg.data = true
    ∧ charsContain "one".data prep_err_msg.data = true
    ∧ charsContain "plus".data prep_err_msg.data = true := by
  refine ⟨rfl, rfl, rfl, ?_, by decide, by decide, by decide⟩
  intro s hs
  simp only [List.mem_cons, List.not_mem_nil, or_false, not_or] at hs
  obtain ⟨h1, h2, h3⟩ := hs
  unfold prep_logical
  rw [if_neg h1, if_neg h2, if_neg h3]

/-- Witness for C5 amended at the label invalid. -/
theorem prep_logical_behavior_witness :
    prep_logical "invalid" =
      Except.error (QiskitError.valueError prep_err_msg) :=
  prep_logical_behavior.2.2.2.1 "invalid" (by decide)

/-- C6 counterexample: the claim says every index outside [0, 2] fails
with an out-of-range error, but error_on is a Python int and qiskit
resolves it by list indexing into the qubit list, so the negative index
-1 is outside [0, 2] yet the injection succeeds, applying the bit flip
to qubit 2. -/
theorem negative_index_injection_counterexample :
    ¬ (0 ≤ (-1 : Int))
    ∧ make_circuit_with_error "one" (-1) =
        Except.ok ([Gate.x 0] ++ encode_bitflip ++ [Gate.x 2] ++
          decode_bitflip ++ measure_all) :=
  ⟨by decide, rfl⟩

/-- C6 amended: for every successfully prepared state,
make_circuit_with_error places exactly one bit-flip gate strictly after
all encoding gates and strictly before all decoding gates; it succeeds
for 0 ≤ e < 3 on qubit e, it also succeeds for -3 ≤ e < 0 on qubit
e + 3 (Python negative list indexing in qiskit's qubit resolution),
and it fails with qiskit's CircuitError exactly when e ≥ 3 or
e < -3. -/
theorem error_injection_bounds :
    ∀ (s : String) (prep : List Gate), prep_logical s = Except.ok prep →
      ∀ e : Int,
        (0 ≤ e ∧ e < 3 → make_circuit_with_error s e =
          Except.ok (prep ++ encode_bitflip ++ [Gate.x e.toNat] ++
            decode_bitflip ++ measure_all))
        ∧ (-3 ≤ e ∧ e < 0 → make_circuit_with_error s e =
            Except.ok (prep ++ encode_bitflip ++ [Gate.x (e + 3).toNat] ++
              decode_bitflip ++ measure_all))
        ∧ (3 ≤ e ∨ e < -3 → make_circuit_with_error s e =
            Except.error (QiskitError.circuitError e)) := by
  intro s prep hp e
  unfold make_circuit_with_error
  rw [hp]
  simp only [Except.bind]
  refine ⟨fun h => ?_, fun h => ?_, fun h => ?_⟩
  · rw [if_pos h]
  · rw [if_neg (by omega), if_pos h]
  · rw [if_neg (by omega), if_neg (by omega)]

/-- Witness for C6 amended at state one: injection on qubit 1 succeeds
in the stated position, injection at the negative index -1 succeeds on
qubit 2, injection at index 5 of the 3-qubit circuit fails. -/
theorem error_injection_bounds_witness :
    make_circuit_with_error "one" 1 =
      Except.ok ([Gate.x 0] ++ encode_bitflip ++ [Gate.x 1] ++
        decode_bitflip ++ measure_all)
    ∧ make_circuit_with_error "one" (-1) =
        Except.ok ([Gate.x 0] ++ encode_bitflip ++ [Gate.x 2] ++
          decode_bitflip ++ measure_all)
    ∧ make_circuit_with_error "one" 5 =
        Except.error (QiskitError.circuitError 5) :=
  ⟨(error_injection_bounds "one" [Gate.x 0] rfl 1).1 (by decide),
   (error_injection_bounds "one" [Gate.x 0] rfl (-1)).2.1 (by decide),
   (error_injection_bounds "one" [Gate.x 0] rfl 5).2.2 (by decide)⟩

/-- C7: for every outcome distribution of the plus trial, the
correct/incorrect tally of run_demo stays 0 (the loop body over the
distribution is a no-op, so the per-outcome correctness accumulation is
never applied) and what is reported is exactly the raw distribution. -/
theorem plus_trial_raw_counts_only :
    ∀ counts_plus : List (List Bool × Nat),
      (run_demo_plus_post counts_plus).correct = 0
      ∧ (run_demo_plus_post counts_plus).printed = counts_plus := by
  intro counts_plus
  exact ⟨foldl_const counts_plus 0, rfl⟩

/-- C8: there is a two-fault configuration, two bit flips on distinct
qubits between encode and decode, whose majority vote disagrees with
the prepared logical bit: preparing zero and flipping qubits 1 and 2
decodes to 1. -/
theorem two_faults_can_misdecode :
    ∃ s, s ∈ (["zero", "one"] : List String) ∧
      ∃ e1 e2 : Nat, e1 ≠ e2 ∧ e1 < 3 ∧ e2 < 3 ∧
        two_fault_majority s e1 e2 ≠ some (logical_bit s) :=
  ⟨"zero", by decide, 1, 2, by decide, by decide, by decide, by decide⟩

/-- C9 counterexample: the claim says shots ≤ 0 fails with an
InvalidConfiguration error at circuit-build time, but the build phase
of run_demo never inspects shots: with shots = 0 it succeeds and builds
exactly the circuits it builds with the default 4096. -/
theorem shots_zero_builds_counterexample :
    run_demo_build 0 = run_demo_build 4096
    ∧ buildsOk (run_demo_build 0) = true := by
  exact ⟨rfl, rfl⟩

/-- C9 amended: run_demo performs no validation of shots: for every
shots value, including values at most 0, the circuit-build phase
succeeds, is independent of shots, and shots is forwarded to the
backend unvalidated. -/
theorem run_demo_build_ignores_shots :
    ∀ shots : Int, run_demo_build shots = run_demo_build 4096
      ∧ buildsOk (run_demo_build shots) = true := by
  intro shots
  exact ⟨rfl, rfl⟩

/-- C10: majority_from_key is invariant under reversal, and more
generally under every permutation of the measured bitstring, because it
depends only on the count of 1-bits; hence the bit-ordering reversal in
the source never changes the decoded logical bit. -/
theorem majority_reversal_invariant :
    (∀ key : List Bool,
      majority_from_key key = majority_from_key key.reverse)
    ∧ (∀ k k' : List Bool, k.Perm k' →
        majority_from_key k = majority_from_key k') := by
  constructor
  · intro key
    rw [majority_from_key_eq_countOnes, majority_from_key_eq_countOnes,
      countOnes_perm (List.reverse_perm key)]
  · intro k k' h
    rw [majority_from_key_eq_countOnes, majority_from_key_eq_countOnes,
      countOnes_perm h]

/-- Witness for C10 at a concrete permutation of the outcome 110. -/
theorem majority_reversal_invariant_witness :
    majority_from_key [true, true, false] =
      majority_from_key [false, true, true] :=
  majority_reversal_invariant.2 [true, true, false] [false, true, true]
    (by decide)
